import Mathlib

/-!
Verification of the LXD storage backend layer (lxd/storage/backend_lxd.go).

Shallow embedding: each Go function relevant to the checked claims is
translated into an executable Lean definition.  Driver calls, which are
behind the abstract driver contract, are supplied as explicit result
oracles (parameters of the model); the backend's own control flow is
translated from the source.  The `revert` package (LIFO compensation
chains with an opt-in success marker) is not part of the provided source
tree, so its semantics are modelled from the specification: a deferred
`revert.Fail()` runs all registered compensations in reverse order unless
`revert.Success()` was reached first.
-/

namespace LXD

/-- Pool status values (shared/api storage pool statuses). -/
inductive PoolStatus where
  | pending
  | created
  | errored
  deriving DecidableEq, Repr

/-- Errors surfaced by backend operations.  `plainMsg` is a `fmt.Errorf`
error; `statusErr` is an `api.StatusErrorf` error carrying an HTTP status
code (modelled from the spec: shared/api status errors are not in the
provided source tree); `driverErr` wraps a driver failure. -/
inductive BErr where
  | plainMsg (msg : String)
  | statusErr (code : Nat) (msg : String)
  | driverErr (msg : String)
  deriving DecidableEq, Repr

/-- Whether an error is of the service-unavailable kind (HTTP 503). -/
def isServiceUnavailErr : BErr → Bool
  | BErr.statusErr 503 _ => true
  | _ => false

/-- The pool state visible to `isStatusReady`: the pool's global status
(`b.db.Status`) and the process-wide set of locally unavailable pool
names (`unavailablePools`, backend_lxd.go:47). -/
structure PoolState where
  poolName : String
  status : PoolStatus
  unavailablePools : List String
  deriving DecidableEq, Repr

/-- Modelled from the spec: `IsAvailable` (defined outside the provided
source tree) reports whether a pool name is absent from the process-wide
unavailable-pools set. -/
def IsAvailable (unavailablePools : List String) (poolName : String) : Bool :=
  !(unavailablePools.contains poolName)

/-- `isStatusReady` (backend_lxd.go:124): a pending global status yields a
plain error; a locally unavailable pool yields an `api.StatusErrorf` with
HTTP 503 (service unavailable). -/
def isStatusReady (st : PoolState) : Option BErr :=
  if st.status = PoolStatus.pending then
    some (BErr.plainMsg "Specified pool is not fully created")
  else if !(IsAvailable st.unavailablePools st.poolName) then
    some (BErr.statusErr 503 "Storage pool is unavailable on this server")
  else
    none

/-- The error `isStatusReady` produces for a pool that is not ready
(pending checked first, as in the source). -/
def notReadyErr (st : PoolState) : BErr :=
  if st.status = PoolStatus.pending then
    BErr.plainMsg "Specified pool is not fully created"
  else
    BErr.statusErr 503 "Storage pool is unavailable on this server"

/-! ## Pool Mount (backend_lxd.go:395) -/

/-- Oracle for the fallible steps inside `Mount`: creating the mount
path, the driver `Mount` call (returning the our-mount bit on success),
and `createStorageStructure`. -/
structure MountOracle where
  mkdirOk : Bool
  driverMount : Except String Bool
  structureOk : Bool
  deriving Repr

/-- Insert a pool name into the unavailable-pools set (`unavailablePools[b.Name()] = struct{}{}`). -/
def markUnavailable (p : String) (pools : List String) : List String :=
  if p ∈ pools then pools else p :: pools

/-- Remove a pool name from the unavailable-pools set (`delete(unavailablePools, b.Name())`). -/
def clearUnavailable (p : String) (pools : List String) : List String :=
  pools.filter (fun q => q ≠ p)

/-- Whether a `Mount` call returned an error. -/
def mountFailed : Except String Bool → Bool
  | Except.error _ => true
  | Except.ok _ => false

/-- `Mount` (backend_lxd.go:395).  A revert entry registered first marks
the pool unavailable; it runs on every error return (deferred
`revert.Fail()`).  On success `revert.Success()` discards the chain and
the pool is removed from the unavailable set.  Returns the result of the
call and the resulting unavailable-pools set. -/
def mount (pool : String) (o : MountOracle) (pools : List String) :
    Except String Bool × List String :=
  if !o.mkdirOk then
    (Except.error "Failed to create storage pool directory", markUnavailable pool pools)
  else
    match o.driverMount with
    | Except.error e => (Except.error e, markUnavailable pool pools)
    | Except.ok ourMount =>
      if !o.structureOk then
        (Except.error "Failed to create storage structure", markUnavailable pool pools)
      else
        (Except.ok ourMount, clearUnavailable pool pools)

/-! ## DeleteInstance (backend_lxd.go:2187) and DeleteCustomVolume (backend_lxd.go:4475) -/

/-- The slice of state a parent-volume deletion touches: the parent's DB
record, its snapshot DB records (suffix names), and the on-disk volume. -/
structure VolState where
  parentDB : Bool
  snapDB : List String
  diskExists : Bool
  deriving DecidableEq, Repr

/-- `DeleteInstance` (backend_lxd.go:2187): if any snapshot volume DB
records remain the operation is refused before touching the driver or
the database; otherwise the on-disk volume (when present) and then the
DB record are removed. -/
def deleteInstance (s : VolState) : Except BErr VolState :=
  if s.snapDB ≠ [] then
    Except.error (BErr.plainMsg "Cannot remove an instance volume that has snapshots")
  else
    Except.ok { s with parentDB := false, diskExists := false }

/-- One iteration of the snapshot-removal loop in `DeleteCustomVolume`
(backend_lxd.go:4492): `DeleteCustomVolumeSnapshot` removes the snapshot
record (and its on-disk snapshot). -/
def deleteCustomSnapStep (s : VolState) (snap : String) : VolState :=
  { s with snapDB := s.snapDB.erase snap }

/-- `DeleteCustomVolume` (backend_lxd.go:4475): every snapshot is deleted
first via `DeleteCustomVolumeSnapshot`, then the on-disk volume, then the
parent DB record.  There is no refusal when snapshots remain.  Snapshot
deletions are modelled as succeeding. -/
def deleteCustomVolume (s : VolState) : Except BErr VolState :=
  let afterSnaps := s.snapDB.foldl deleteCustomSnapStep s
  Except.ok { afterSnaps with parentDB := false, diskExists := false }

/-- The states reached after each iteration of the snapshot-removal
loop of `DeleteCustomVolume`. -/
def deleteCustomSnapStates : VolState → List String → List VolState
  | _, [] => []
  | v, x :: xs =>
    let v' := deleteCustomSnapStep v x
    v' :: deleteCustomSnapStates v' xs

/-- The sequence of states committed while `DeleteCustomVolume` runs: the
initial state, the state after each snapshot deletion, and the final
state after the parent record is removed. -/
def deleteCustomVolumeStates (s : VolState) : List VolState :=
  let last := s.snapDB.foldl deleteCustomSnapStep s
  s :: deleteCustomSnapStates s s.snapDB ++
    [{ last with parentDB := false, diskExists := false }]

/-! ## RenameInstance snapshot DB renames (backend_lxd.go:2108) -/

/-- The DB records touched by `RenameInstance`: the parent volume record
and, for each snapshot record, the parent-name component of its
`parent/suffix` record name together with the suffix. -/
structure RenameState where
  parentRec : String
  snapRecs : List (String × String)
  deriving DecidableEq, Repr

/-- All parent-name components appearing in the committed records. -/
def recParents (st : RenameState) : List String :=
  st.parentRec :: st.snapRecs.map Prod.fst

/-- A committed DB state is mixed when some record carries the new parent
name while another still carries the old one. -/
def mixedState (oldName newName : String) (st : RenameState) : Bool :=
  (recParents st).contains oldName && (recParents st).contains newName

/-- `RenameStoragePoolVolume` applied to the snapshot record at position
`k`: its parent-name component becomes `who`, its suffix is unchanged. -/
def setRecParent (who : String) (recs : List (String × String)) (k : Nat) :
    List (String × String) :=
  recs.set k (who, (recs.getD k ("", "")).2)

/-- Modelled from the spec: each `RenameStoragePoolVolume` call commits
on its own (the metadata-store adapter wraps each call, not the whole
loop, in a transaction).  Running a LIFO revert chain applies the
registered compensations most-recent first. -/
def runReverts (st : RenameState) (reverts : List (RenameState → RenameState)) :
    RenameState :=
  reverts.foldl (fun s f => f s) st

/-- The snapshot-rename loop of `RenameInstance` (backend_lxd.go:2109):
one `RenameStoragePoolVolume` call per snapshot record, each followed by
registering a compensating rename.  `failAt = some k` makes the k-th
DB rename call fail (counting from 0); on failure the revert chain runs.
Returns the final committed state, the revert chain built so far, the
trace of states committed by the loop, and whether the loop completed. -/
def snapRenameLoop (oldName newName : String) (failAt : Option Nat) :
    List String → Nat → RenameState → List (RenameState → RenameState) →
    RenameState × List (RenameState → RenameState) × List RenameState × Bool
  | [], _, st, reverts => (st, reverts, [], true)
  | _s :: rest, k, st, reverts =>
    if failAt = some k then
      (runReverts st reverts, [], [], false)
    else
      let st' := { st with snapRecs := setRecParent newName st.snapRecs k }
      let rev := fun s => { s with snapRecs := setRecParent oldName s.snapRecs k }
      let next := snapRenameLoop oldName newName failAt rest (k + 1) st' (rev :: reverts)
      (next.1, next.2.1, st' :: next.2.2.1, next.2.2.2)

/-- The initial DB state before `RenameInstance` runs: every record still
carries the old parent name. -/
def renameInit (oldName : String) (suffixes : List String) : RenameState :=
  ⟨oldName, suffixes.map (fun s => (oldName, s))⟩

/-- Snapshot records mid-way through the rename loop: the first `done`
suffixes carry the new parent name, the remaining `todo` still carry the
old one. -/
def recsOf (oldName newName : String) (done todo : List String) :
    List (String × String) :=
  done.map (fun s => (newName, s)) ++ todo.map (fun s => (oldName, s))

/-- The DB phase of `RenameInstance` (backend_lxd.go:2108):
snapshot records are renamed one DB call at a time, then the parent
record is renamed (`failAt = some suffixes.length` makes the parent
rename fail).  On any failure the deferred `revert.Fail()` runs the
compensating renames.  Returns the final committed state and whether the
phase succeeded. -/
def renameInstanceDB (oldName newName : String) (suffixes : List String)
    (failAt : Option Nat) : RenameState × Bool :=
  let st0 := renameInit oldName suffixes
  let r := snapRenameLoop oldName newName failAt suffixes 0 st0 []
  if !r.2.2.2 then
    (r.1, false)
  else if failAt = some suffixes.length then
    (runReverts r.1 r.2.1, false)
  else
    ({ r.1 with parentRec := newName }, true)

/-- The sequence of DB states committed during a `RenameInstance` run in
which every DB call succeeds: the initial state, the state after each
snapshot-record rename, and the state after the parent-record rename. -/
def renameCommittedStates (oldName newName : String) (suffixes : List String) :
    List RenameState :=
  let st0 := renameInit oldName suffixes
  let r := snapRenameLoop oldName newName none suffixes 0 st0 []
  st0 :: r.2.2.1 ++ [{ r.1 with parentRec := newName }]

/-! ## SetInstanceQuota (backend_lxd.go:2649) -/

/-- A driver `SetVolumeQuota` call recorded by the model: whether it was
issued on the VM config-filesystem companion volume (true) or the
primary volume (false), and the size string passed. -/
structure QuotaCall where
  onFsCompanion : Bool
  size : String
  deriving DecidableEq, Repr

/-- `SetInstanceQuota` (backend_lxd.go:2649).  The main quota is applied
to the primary volume; for VM block volumes the companion
config-filesystem volume receives `vmStateSize`, defaulted to the
driver's `DefaultVMBlockFilesystemSize` exactly when `vmStateSize` is
empty and the main size is non-empty.  Driver results for the two calls
are supplied as oracles.  Returns the error (if any) and the quota calls
issued. -/
def setInstanceQuota (isVMBlock : Bool) (defaultVMBlockFilesystemSize : String)
    (size vmStateSize : String) (mainQuotaErr fsQuotaErr : Option String) :
    Option BErr × List QuotaCall :=
  match mainQuotaErr with
  | some m => (some (BErr.driverErr m), [⟨false, size⟩])
  | none =>
    if isVMBlock then
      let vmStateSize' :=
        if vmStateSize == "" && !(size == "") then defaultVMBlockFilesystemSize
        else vmStateSize
      match fsQuotaErr with
      | some m => (some (BErr.driverErr m), [⟨false, size⟩, ⟨true, vmStateSize'⟩])
      | none => (none, [⟨false, size⟩, ⟨true, vmStateSize'⟩])
    else
      (none, [⟨false, size⟩])

/-! ## RestoreInstanceSnapshot (backend_lxd.go:3061) and RestoreCustomVolume (backend_lxd.go:4927) -/

/-- Result of one driver `RestoreVolume` call: success, the structured
`drivers.ErrDeleteSnapshots` error carrying the offending snapshot
names, or any other failure. -/
inductive RestoreResult where
  | ok
  | deleteFirst (names : List String)
  | fail (msg : String)
  deriving DecidableEq, Repr

/-- The inputs of `RestoreInstanceSnapshot` that the model tracks: the
parent volume's recorded description+config (`dbCfg`), the snapshot's
description+config (`snapCfg`), the instance's snapshot suffix names,
and the results of the first and (if issued) second driver
`RestoreVolume` calls. -/
structure InstRestoreEnv where
  dbCfg : String
  snapCfg : String
  instSnaps : List String
  res1 : RestoreResult
  res2 : RestoreResult
  deriving DecidableEq, Repr

/-- Observable outcome of `RestoreInstanceSnapshot`: the returned error
(`none` is a nil return), the parent volume's DB description+config
after the call (including the effect of the deferred revert chain), the
snapshots deleted, and the number of driver `RestoreVolume` calls. -/
structure InstRestoreOut where
  err : Option RestoreResult
  finalCfg : String
  deleted : List String
  calls : Nat
  deriving DecidableEq, Repr

/-- `RestoreInstanceSnapshot` (backend_lxd.go:3061).  When the recorded
config differs from the snapshot's, the DB row is updated to the
snapshot's values and a compensating update is registered
(lines 3118-3134).  The driver restore is then attempted; on
`ErrDeleteSnapshots` the named snapshots are deleted (instance snapshots
whose suffix appears in the error) and the restore is retried once
(lines 3145-3179).  Only the no-retry success path reaches
`revert.Success()` (line 3181); every other return runs the deferred
revert chain, restoring the recorded config.  Snapshot deletions and
`inst.Snapshots()` are modelled as succeeding. -/
def restoreInstanceSnapshot (e : InstRestoreEnv) : InstRestoreOut :=
  let updated := e.dbCfg ≠ e.snapCfg
  let cur := if updated then e.snapCfg else e.dbCfg
  match e.res1 with
  | RestoreResult.ok =>
      { err := none, finalCfg := cur, deleted := [], calls := 1 }
  | RestoreResult.deleteFirst names =>
      let deleted := e.instSnaps.filter (fun s => decide (s ∈ names))
      match e.res2 with
      | RestoreResult.ok =>
          { err := none, finalCfg := e.dbCfg, deleted := deleted, calls := 2 }
      | r =>
          { err := some r, finalCfg := e.dbCfg, deleted := deleted, calls := 2 }
  | RestoreResult.fail m =>
      { err := some (RestoreResult.fail m), finalCfg := e.dbCfg, deleted := [], calls := 1 }

/-- Observable outcome of `RestoreCustomVolume`: the returned error, the
snapshots deleted, and the number of driver `RestoreVolume` calls. -/
structure CustomRestoreOut where
  err : Option RestoreResult
  deleted : List String
  calls : Nat
  deriving DecidableEq, Repr

/-- `RestoreCustomVolume` (backend_lxd.go:4927, restore portion at
4988-5008).  On `ErrDeleteSnapshots` every snapshot named in the error is
deleted via `DeleteCustomVolumeSnapshot` and the restore is retried once;
a nil second error falls through to the final `return err`, returning
nil.  Snapshot deletions are modelled as succeeding. -/
def restoreCustomVolume (res1 res2 : RestoreResult) : CustomRestoreOut :=
  match res1 with
  | RestoreResult.ok => { err := none, deleted := [], calls := 1 }
  | RestoreResult.deleteFirst names =>
      match res2 with
      | RestoreResult.ok => { err := none, deleted := names, calls := 2 }
      | r => { err := some r, deleted := names, calls := 2 }
  | RestoreResult.fail m =>
      { err := some (RestoreResult.fail m), deleted := [], calls := 1 }

/-! ## EnsureImage (backend_lxd.go:3276) -/

/-- Result of the driver `SetVolumeQuota` call on an existing optimized
image volume: success, `drivers.ErrCannotBeShrunk`,
`drivers.ErrNotSupported`, or any other failure. -/
inductive QuotaResult where
  | ok
  | cannotBeShrunk
  | notSupported
  | fail (msg : String)
  deriving DecidableEq, Repr

/-- Side effects `EnsureImage` can perform, in order. -/
inductive EnsureEvent where
  | deleteImage
  | deleteVolumeDisk
  | setQuota (size : Nat)
  | dbCreate
  | createVolumeUnpack
  | dbUpdateSize
  deriving DecidableEq, Repr

/-- The inputs `EnsureImage` consults: pool readiness, driver optimized
image support, whether a DB record for the fingerprint exists, whether
the pool's block-backed mode or chosen block filesystem differ from the
recorded volume, whether the volume exists on disk, the size computed by
`ConfigSizeFromSource` (a driver-side computation supplied as an
oracle), the `SetVolumeQuota` result, and the unpacked size reported by
the image filler (0 when not reported). -/
structure EnsureEnv where
  pool : PoolState
  optimizedImages : Bool
  dbRecord : Bool
  blockModeChanged : Bool
  blockFSChanged : Bool
  volExists : Bool
  cfgSizeFromSource : Nat
  quotaRes : QuotaResult
  fillerSize : Nat
  deriving Repr

/-- The regeneration path of `EnsureImage` (lines 3420-3454): create the
DB record, create the volume with the image-unpack filler, and persist
the unpacked size when the filler reports one.  Creation steps are
modelled as succeeding. -/
def ensureImageCreate (e : EnsureEnv) : Option BErr × List EnsureEvent :=
  (none, [EnsureEvent.dbCreate, EnsureEvent.createVolumeUnpack] ++
    (if e.fillerSize ≠ 0 then [EnsureEvent.dbUpdateSize] else []))

/-- `EnsureImage` (backend_lxd.go:3276).  After the readiness and
optimized-images gates: a DB record whose block mode or block filesystem
no longer matches the pool defaults is deleted (lines 3327-3364); an
on-disk volume with a DB record is size-checked via
`ConfigSizeFromSource` and `SetVolumeQuota`, deleting and regenerating
on `ErrCannotBeShrunk` or `ErrNotSupported`, reusing on success, and
failing on any other error (lines 3366-3407); an on-disk volume without
a DB record is deleted as a partial unpack (lines 3408-3417); finally
the volume is (re)created (lines 3420-3454). -/
def ensureImage (e : EnsureEnv) : Option BErr × List EnsureEvent :=
  match isStatusReady e.pool with
  | some err => (some err, [])
  | none =>
    if !e.optimizedImages then
      (none, [])
    else
      let regen := e.dbRecord && (e.blockModeChanged || e.blockFSChanged)
      let evs0 : List EnsureEvent := if regen then [EnsureEvent.deleteImage] else []
      let dbRecord' := e.dbRecord && !regen
      let volExists' := e.volExists && !regen
      if volExists' then
        if dbRecord' then
          match e.quotaRes with
          | QuotaResult.ok =>
              (none, evs0 ++ [EnsureEvent.setQuota e.cfgSizeFromSource])
          | QuotaResult.cannotBeShrunk =>
              let c := ensureImageCreate e
              (c.1, evs0 ++ [EnsureEvent.setQuota e.cfgSizeFromSource,
                EnsureEvent.deleteImage] ++ c.2)
          | QuotaResult.notSupported =>
              let c := ensureImageCreate e
              (c.1, evs0 ++ [EnsureEvent.setQuota e.cfgSizeFromSource,
                EnsureEvent.deleteImage] ++ c.2)
          | QuotaResult.fail m =>
              (some (BErr.driverErr m), evs0 ++ [EnsureEvent.setQuota e.cfgSizeFromSource])
        else
          let c := ensureImageCreate e
          (c.1, evs0 ++ [EnsureEvent.deleteVolumeDisk] ++ c.2)
      else
        let c := ensureImageCreate e
        (c.1, evs0 ++ c.2)

/-! ## CreateInstanceFromImage (backend_lxd.go:1687) -/

/-- Result of the driver `CreateVolumeFromCopy` call from the cached
image volume. -/
inductive CopyResult where
  | ok
  | cannotBeShrunk
  | fail (msg : String)
  deriving DecidableEq, Repr

/-- Side effects of the instance-creation paths, in order. -/
inductive CreateEvent where
  | dbCreate
  | createFromCopy
  | createVolumeUnpack
  | symlink
  | templateApply
  deriving DecidableEq, Repr

/-- The inputs `CreateInstanceFromImage` consults: pool readiness,
driver optimized-image support, the `CreateVolumeFromCopy` result, and
the result of the fallback/unoptimized `CreateVolume` with the
image-unpack filler (`none` is success). -/
structure CreateFromImageEnv where
  pool : PoolState
  optimizedImages : Bool
  copyRes : CopyResult
  unpackErr : Option String
  deriving Repr

/-- `CreateInstanceFromImage` (backend_lxd.go:1687).  After the
readiness gate the volume DB record is created.  Without optimized
images the volume is created with the image-unpack filler.  With them,
`EnsureImage` runs (modelled as succeeding), then `CreateVolumeFromCopy`
from the cached image volume; only on `drivers.ErrCannotBeShrunk` does
the code fall back to unpacking into a new volume (lines 1772-1793); any
other copy error is returned.  Then the symlink is wired and template
hooks applied (modelled as succeeding). -/
def createInstanceFromImage (e : CreateFromImageEnv) : Option BErr × List CreateEvent :=
  match isStatusReady e.pool with
  | some err => (some err, [])
  | none =>
    if !e.optimizedImages then
      match e.unpackErr with
      | some m => (some (BErr.driverErr m), [CreateEvent.dbCreate, CreateEvent.createVolumeUnpack])
      | none =>
          (none, [CreateEvent.dbCreate, CreateEvent.createVolumeUnpack,
            CreateEvent.symlink, CreateEvent.templateApply])
    else
      match e.copyRes with
      | CopyResult.ok =>
          (none, [CreateEvent.dbCreate, CreateEvent.createFromCopy,
            CreateEvent.symlink, CreateEvent.templateApply])
      | CopyResult.cannotBeShrunk =>
          match e.unpackErr with
          | some m =>
              (some (BErr.driverErr m),
                [CreateEvent.dbCreate, CreateEvent.createFromCopy,
                  CreateEvent.createVolumeUnpack])
          | none =>
              (none, [CreateEvent.dbCreate, CreateEvent.createFromCopy,
                CreateEvent.createVolumeUnpack, CreateEvent.symlink,
                CreateEvent.templateApply])
      | CopyResult.fail m =>
          (some (BErr.driverErr m), [CreateEvent.dbCreate, CreateEvent.createFromCopy])

/-! ## CreateInstanceFromMigration snapshot loop (backend_lxd.go:1921) -/

/-- The Go index guard at backend_lxd.go:1930:
`len(srcInfo.Config.VolumeSnapshots) >= i-1`, evaluated over Go ints. -/
def volumeSnapshotsGuard (volSnapsLen : Nat) (i : Nat) : Bool :=
  decide ((volSnapsLen : Int) ≥ (i : Int) - 1)

/-- The guard named by the claim as the correct one: `i < len(srcInfo.Config.VolumeSnapshots)`. -/
def correctedGuard (volSnapsLen : Nat) (i : Nat) : Bool :=
  decide (i < volSnapsLen)

/-- Outcome of the snapshot-record loop of `CreateInstanceFromMigration`:
either the Go code would index `srcInfo.Config.VolumeSnapshots` out of
range at position `i` (a runtime panic, reached as the out-of-range
branch of total indexing), or the loop completes having created one
snapshot DB record per entry of `args.Snapshots`, each recorded with
whether its config was taken from the index header. -/
inductive MigLoopOutcome where
  | outOfRange (i : Nat)
  | completed (snapRecs : List (String × Bool))
  deriving DecidableEq, Repr

/-- The snapshot-record loop (backend_lxd.go:1921-1950).  For each
`args.Snapshots` entry the source snapshot config is used when the index
header is present, the guard `len(VolumeSnapshots) >= i-1` passes, and
the entry at position `i` has the matching name; with the guard passed,
`VolumeSnapshots[i]` is accessed, whose out-of-range branch is the
`none` case of total indexing. -/
def migSnapLoop (headerSnaps : Option (List String)) :
    List String → Nat → List (String × Bool) → MigLoopOutcome
  | [], _, acc => MigLoopOutcome.completed acc.reverse
  | snapName :: rest, i, acc =>
    match headerSnaps with
    | none => migSnapLoop none rest (i + 1) ((snapName, false) :: acc)
    | some l =>
      if volumeSnapshotsGuard l.length i then
        match l.get? i with
        | none => MigLoopOutcome.outOfRange i
        | some h =>
            migSnapLoop (some l) rest (i + 1) ((snapName, h == snapName) :: acc)
      else
        migSnapLoop (some l) rest (i + 1) ((snapName, false) :: acc)

/-- `CreateInstanceFromMigration` (backend_lxd.go:1812), reduced to the
readiness gate (line 1817) and the snapshot-record loop; the volume
steps around the loop are modelled as succeeding. -/
def createInstanceFromMigration (pool : PoolState) (snapshots : List String)
    (headerSnaps : Option (List String)) :
    Option BErr × Option MigLoopOutcome :=
  match isStatusReady pool with
  | some err => (some err, none)
  | none => (none, some (migSnapLoop headerSnaps snapshots 0 []))

/-- `RefreshCustomVolume` (backend_lxd.go:1129): only the readiness gate
at line 1134 and the position of the first side effect are modelled; the
refresh body is abstracted as its error and event list. -/
def refreshCustomVolume (pool : PoolState) (bodyErr : Option BErr)
    (bodyEvents : List CreateEvent) : Option BErr × List CreateEvent :=
  match isStatusReady pool with
  | some err => (some err, [])
  | none => (bodyErr, bodyEvents)

/-! ## Helper lemmas -/

theorem mem_markUnavailable (p : String) (l : List String) : p ∈ markUnavailable p l := by
  unfold markUnavailable
  split
  · assumption
  · exact List.mem_cons_self p l

theorem not_mem_clearUnavailable (p : String) (l : List String) :
    p ∉ clearUnavailable p l := by
  intro h
  have := List.of_mem_filter h
  simp at this

/-! ## C8 -/

/-- C8: for every pool `Mount` call, if the call returns an error the
pool's name is afterwards present in the process-wide unavailable-pools
set, and if the call succeeds it is afterwards absent from that set. -/
theorem mount_unavailable_cache (pool : String) (o : MountOracle) (pools : List String) :
    pool ∈ (mount pool o pools).2 ↔ mountFailed (mount pool o pools).1 = true := by
  obtain ⟨mk, dm, st⟩ := o
  cases mk <;> cases dm <;> cases st <;>
    simp [mount, mountFailed, mem_markUnavailable, not_mem_clearUnavailable]

/-! ## C7 -/

/-- C7: `SetInstanceQuota` applies the main size to the primary volume
and then, for VM block volumes, applies a quota to the config-filesystem
companion: the explicit `vmStateSize` when given, otherwise the driver's
`DefaultVMBlockFilesystemSize` when the main size is non-empty, and
otherwise the empty size so both quotas are removed together. -/
theorem setInstanceQuota_vm_companion (defaultSize size vmStateSize : String)
    (fsQuotaErr : Option String) :
    (setInstanceQuota true defaultSize size vmStateSize none fsQuotaErr).2 =
      [⟨false, size⟩,
        ⟨true, if vmStateSize = "" then (if size = "" then "" else defaultSize)
          else vmStateSize⟩] := by
  by_cases h1 : vmStateSize = "" <;> by_cases h2 : size = "" <;>
    cases fsQuotaErr <;> simp [setInstanceQuota, h1, h2]

/-! ## C5 -/

/-- C5: in `CreateInstanceFromImage` on a driver with optimized images,
a `CreateVolumeFromCopy` failure with the cannot-be-shrunk error falls
back to creating a new volume via the image-unpack filler and the
operation can still succeed; any other copy failure fails the operation
without that fallback. -/
theorem createInstanceFromImage_shrunk_fallback (pool : PoolState) (m um : String)
    (hReady : isStatusReady pool = none) :
    (createInstanceFromImage ⟨pool, true, CopyResult.cannotBeShrunk, none⟩ =
      (none, [CreateEvent.dbCreate, CreateEvent.createFromCopy,
        CreateEvent.createVolumeUnpack, CreateEvent.symlink,
        CreateEvent.templateApply])) ∧
    (createInstanceFromImage ⟨pool, true, CopyResult.cannotBeShrunk, some um⟩ =
      (some (BErr.driverErr um), [CreateEvent.dbCreate, CreateEvent.createFromCopy,
        CreateEvent.createVolumeUnpack])) ∧
    (createInstanceFromImage ⟨pool, true, CopyResult.fail m, none⟩ =
      (some (BErr.driverErr m), [CreateEvent.dbCreate, CreateEvent.createFromCopy])) := by
  refine ⟨?_, ?_, ?_⟩ <;> simp [createInstanceFromImage, hReady]

theorem createInstanceFromImage_shrunk_fallback_check :
    createInstanceFromImage ⟨⟨"p1", PoolStatus.created, []⟩, true,
        CopyResult.cannotBeShrunk, none⟩ =
      (none, [CreateEvent.dbCreate, CreateEvent.createFromCopy,
        CreateEvent.createVolumeUnpack, CreateEvent.symlink,
        CreateEvent.templateApply]) ∧
    createInstanceFromImage ⟨⟨"p1", PoolStatus.created, []⟩, true,
        CopyResult.fail "boom", none⟩ =
      (some (BErr.driverErr "boom"), [CreateEvent.dbCreate, CreateEvent.createFromCopy]) := by
  have h := createInstanceFromImage_shrunk_fallback ⟨"p1", PoolStatus.created, []⟩
    "boom" "unused" rfl
  exact ⟨h.1, h.2.2⟩

/-! ## C4 -/

/-- C4: on an `EnsureImage` call where the optimized image volume exists
on disk and in the database and the pool's block-mode and
block-filesystem defaults are unchanged, the effective size computed via
`ConfigSizeFromSource` is passed to `SetVolumeQuota`: on cannot-be-shrunk
or not-supported the volume is deleted and recreated (new DB record then
`CreateVolume` with the image-unpack filler); on success the volume is
reused with no further changes; any other quota error fails the call. -/
theorem ensureImage_existing_volume (pool : PoolState) (sz fillerSize : Nat) (m : String)
    (hReady : isStatusReady pool = none) :
    (ensureImage ⟨pool, true, true, false, false, true, sz, QuotaResult.ok, fillerSize⟩ =
      (none, [EnsureEvent.setQuota sz])) ∧
    (ensureImage ⟨pool, true, true, false, false, true, sz,
        QuotaResult.cannotBeShrunk, fillerSize⟩ =
      (none, [EnsureEvent.setQuota sz, EnsureEvent.deleteImage, EnsureEvent.dbCreate,
        EnsureEvent.createVolumeUnpack] ++
        (if fillerSize ≠ 0 then [EnsureEvent.dbUpdateSize] else []))) ∧
    (ensureImage ⟨pool, true, true, false, false, true, sz,
        QuotaResult.notSupported, fillerSize⟩ =
      (none, [EnsureEvent.setQuota sz, EnsureEvent.deleteImage, EnsureEvent.dbCreate,
        EnsureEvent.createVolumeUnpack] ++
        (if fillerSize ≠ 0 then [EnsureEvent.dbUpdateSize] else []))) ∧
    (ensureImage ⟨pool, true, true, false, false, true, sz,
        QuotaResult.fail m, fillerSize⟩ =
      (some (BErr.driverErr m), [EnsureEvent.setQuota sz])) := by
  refine ⟨?_, ?_, ?_, ?_⟩ <;> simp [ensureImage, ensureImageCreate, hReady]

theorem ensureImage_existing_volume_check :
    ensureImage ⟨⟨"p1", PoolStatus.created, []⟩, true, true, false, false, true, 10,
        QuotaResult.cannotBeShrunk, 7⟩ =
      (none, [EnsureEvent.setQuota 10, EnsureEvent.deleteImage, EnsureEvent.dbCreate,
        EnsureEvent.createVolumeUnpack, EnsureEvent.dbUpdateSize]) ∧
    ensureImage ⟨⟨"p1", PoolStatus.created, []⟩, true, true, false, false, true, 10,
        QuotaResult.ok, 7⟩ =
      (none, [EnsureEvent.setQuota 10]) := by
  have h := ensureImage_existing_volume ⟨"p1", PoolStatus.created, []⟩ 10 7 "unused" rfl
  refine ⟨?_, h.1⟩
  · have h2 := h.2.1
    simpa using h2

/-! ## C1 -/

/-- C1: for both restore operations, a driver `RestoreVolume` failure
with the structured delete-these-snapshots-first error causes exactly
the named snapshots to be deleted followed by exactly one retry whose
error, if any, is returned; a first error of any other kind is returned
with no snapshot deleted and no retry. -/
theorem restore_retry_contract (e : InstRestoreEnv) (names : List String)
    (m : String) (r2 : RestoreResult)
    (hsub : ∀ s ∈ names, s ∈ e.instSnaps) :
    (e.res1 = RestoreResult.deleteFirst names →
      (restoreInstanceSnapshot e).calls = 2 ∧
      (∀ s, s ∈ (restoreInstanceSnapshot e).deleted ↔ s ∈ names) ∧
      (restoreInstanceSnapshot e).err =
        (if e.res2 = RestoreResult.ok then none else some e.res2)) ∧
    (e.res1 = RestoreResult.fail m →
      restoreInstanceSnapshot e =
        ⟨some (RestoreResult.fail m), e.dbCfg, [], 1⟩) ∧
    (restoreCustomVolume (RestoreResult.deleteFirst names) r2 =
      ⟨if r2 = RestoreResult.ok then none else some r2, names, 2⟩) ∧
    (restoreCustomVolume (RestoreResult.fail m) r2 =
      ⟨some (RestoreResult.fail m), [], 1⟩) := by
  refine ⟨?_, ?_, ?_, ?_⟩
  · intro h1
    refine ⟨?_, ?_, ?_⟩
    · cases hr2 : e.res2 <;> simp [restoreInstanceSnapshot, h1, hr2]
    · intro s
      constructor
      · intro hs
        rcases hr2 : e.res2 <;> rw [restoreInstanceSnapshot, h1] at hs <;>
          simp [hr2] at hs <;> exact hs.2
      · intro hs
        rcases hr2 : e.res2 <;> rw [restoreInstanceSnapshot, h1] <;>
          simp [hr2] <;> exact ⟨hsub s hs, hs⟩
    · cases hr2 : e.res2 <;> simp [restoreInstanceSnapshot, h1, hr2]
  · intro h1
    simp [restoreInstanceSnapshot, h1]
  · cases r2 <;> simp [restoreCustomVolume]
  · cases r2 <;> simp [restoreCustomVolume]

theorem restore_retry_contract_check :
    (restoreInstanceSnapshot ⟨"cfgA", "cfgB", ["a", "b", "c"],
        RestoreResult.deleteFirst ["b", "c"], RestoreResult.ok⟩).calls = 2 ∧
    ("b" ∈ (restoreInstanceSnapshot ⟨"cfgA", "cfgB", ["a", "b", "c"],
        RestoreResult.deleteFirst ["b", "c"], RestoreResult.ok⟩).deleted ↔
      "b" ∈ ["b", "c"]) ∧
    restoreCustomVolume (RestoreResult.fail "boom") RestoreResult.ok =
      ⟨some (RestoreResult.fail "boom"), [], 1⟩ := by
  have h := restore_retry_contract ⟨"cfgA", "cfgB", ["a", "b", "c"],
    RestoreResult.deleteFirst ["b", "c"], RestoreResult.ok⟩ ["b", "c"] "boom"
    RestoreResult.ok (by decide)
  exact ⟨(h.1 rfl).1, (h.1 rfl).2.1 "b", h.2.2.2⟩

/-! ## C9 -/

/-- C9: when `RestoreInstanceSnapshot` succeeds only through the
delete-snapshots-and-retry path, it returns nil without reaching
`revert.Success()`, so the deferred revert chain rolls back the earlier
DB update: the volume's recorded description+config ends at its pre-call
value rather than the snapshot's. -/
theorem restoreInstanceSnapshot_retry_rolls_back_db (e : InstRestoreEnv)
    (names : List String)
    (h1 : e.res1 = RestoreResult.deleteFirst names)
    (h2 : e.res2 = RestoreResult.ok)
    (hc : e.dbCfg ≠ e.snapCfg) :
    (restoreInstanceSnapshot e).err = none ∧
    (restoreInstanceSnapshot e).finalCfg = e.dbCfg ∧
    (restoreInstanceSnapshot e).finalCfg ≠ e.snapCfg := by
  refine ⟨?_, ?_, ?_⟩ <;> simp [restoreInstanceSnapshot, h1, h2, hc]

theorem restoreInstanceSnapshot_retry_rolls_back_db_check :
    (restoreInstanceSnapshot ⟨"cfgA", "cfgB", ["a", "b"],
        RestoreResult.deleteFirst ["b"], RestoreResult.ok⟩).err = none ∧
    (restoreInstanceSnapshot ⟨"cfgA", "cfgB", ["a", "b"],
        RestoreResult.deleteFirst ["b"], RestoreResult.ok⟩).finalCfg = "cfgA" ∧
    (restoreInstanceSnapshot ⟨"cfgA", "cfgB", ["a", "b"],
        RestoreResult.deleteFirst ["b"], RestoreResult.ok⟩).finalCfg ≠ "cfgB" :=
  restoreInstanceSnapshot_retry_rolls_back_db
    ⟨"cfgA", "cfgB", ["a", "b"], RestoreResult.deleteFirst ["b"], RestoreResult.ok⟩
    ["b"] rfl rfl (by decide)

/-! ## C10 -/

/-- C10: the guard `len(srcInfo.Config.VolumeSnapshots) >= i-1` does not
ensure `i` is a valid index: with two `args.Snapshots` entries and a
one-element header snapshot list the loop reaches the out-of-range
branch of `VolumeSnapshots[i]` at `i = 1`; the guard
`i < len(srcInfo.Config.VolumeSnapshots)` would make that branch
unreachable. -/
theorem migration_snapshot_index_out_of_range :
    (List.length ["s1", "s2"] > List.length ["s1"]) ∧
    (migSnapLoop (some ["s1"]) ["s1", "s2"] 0 [] = MigLoopOutcome.outOfRange 1) ∧
    (createInstanceFromMigration ⟨"p1", PoolStatus.created, []⟩ ["s1", "s2"]
        (some ["s1"]) =
      (none, some (MigLoopOutcome.outOfRange 1))) ∧
    (∀ (l : List String) (i : Nat), correctedGuard l.length i = true →
      (l.get? i).isSome = true) := by
  refine ⟨by decide, by decide, by decide, ?_⟩
  intro l i h
  have hi : i < l.length := of_decide_eq_true h
  rw [List.get?_eq_get hi]
  rfl

theorem migration_snapshot_index_out_of_range_check :
    correctedGuard (List.length ["s1", "s2", "s3"]) 1 = true ∧
    ((["s1", "s2", "s3"] : List String).get? 1).isSome = true :=
  ⟨by decide, migration_snapshot_index_out_of_range.2.2.2 ["s1", "s2", "s3"] 1 (by decide)⟩

/-! ## C2 (corrected) -/

/-- C2 counterexample: a custom volume with one remaining snapshot
record is not refused by `DeleteCustomVolume`; the call succeeds and
removes the snapshot record along with the parent record and the
on-disk volume. -/
theorem deleteCustomVolume_with_snapshots_not_refused :
    (VolState.mk true ["snap1"] true).snapDB ≠ [] ∧
    deleteCustomVolume ⟨true, ["snap1"], true⟩ =
      Except.ok ⟨false, [], false⟩ := by
  constructor
  · decide
  · rfl

theorem deleteCustomSnapStates_parentDB (l : List String) :
    ∀ (v : VolState), ∀ t ∈ deleteCustomSnapStates v l, t.parentDB = v.parentDB := by
  induction l with
  | nil => intro v t ht; simp [deleteCustomSnapStates] at ht
  | cons x xs ih =>
    intro v t ht
    simp only [deleteCustomSnapStates, List.mem_cons] at ht
    rcases ht with rfl | ht
    · rfl
    · exact ih (deleteCustomSnapStep v x) t ht

theorem foldl_deleteCustomSnapStep (l : List String) :
    ∀ (v : VolState), v.snapDB = l →
      l.foldl deleteCustomSnapStep v =
        ⟨v.parentDB, [], v.diskExists⟩ := by
  induction l with
  | nil => intro v hv; cases v; simp_all
  | cons x xs ih =>
    intro v hv
    have hstep : deleteCustomSnapStep v x = ⟨v.parentDB, xs, v.diskExists⟩ := by
      cases v
      simp_all [deleteCustomSnapStep, List.erase_cons_head]
    rw [List.foldl_cons, hstep, ih ⟨v.parentDB, xs, v.diskExists⟩ rfl]

/-- C2 amended: `DeleteInstance` refuses (with an error, before touching
the driver or database) while snapshot records remain; `DeleteCustomVolume`
instead deletes every snapshot first and removes the parent record only
afterwards, so no committed state has the parent record gone while a
snapshot record remains. -/
theorem parent_delete_snapshot_discipline (s : VolState)
    (hsnap : s.snapDB ≠ []) (hp : s.parentDB = true) :
    (deleteInstance s =
      Except.error (BErr.plainMsg "Cannot remove an instance volume that has snapshots")) ∧
    (deleteCustomVolume s = Except.ok ⟨false, [], false⟩) ∧
    (∀ t ∈ deleteCustomVolumeStates s, t.parentDB = false → t.snapDB = []) := by
  refine ⟨?_, ?_, ?_⟩
  · simp [deleteInstance, hsnap]
  · simp [deleteCustomVolume, foldl_deleteCustomSnapStep s.snapDB s rfl]
  · intro t ht hfalse
    simp only [deleteCustomVolumeStates, List.mem_cons, List.mem_append,
      List.mem_singleton] at ht
    rcases ht with (rfl | ht) | rfl | hnil
    · rw [hp] at hfalse; cases hfalse
    · have := deleteCustomSnapStates_parentDB s.snapDB s t ht
      rw [hfalse, hp] at this; cases this
    · simp [foldl_deleteCustomSnapStep s.snapDB s rfl]
    · cases hnil

theorem parent_delete_snapshot_discipline_check :
    (deleteInstance ⟨true, ["snapA"], true⟩ =
      Except.error (BErr.plainMsg "Cannot remove an instance volume that has snapshots")) ∧
    (deleteCustomVolume ⟨true, ["snapA"], true⟩ = Except.ok ⟨false, [], false⟩) := by
  have h := parent_delete_snapshot_discipline ⟨true, ["snapA"], true⟩ (by decide) rfl
  exact ⟨h.1, h.2.1⟩

/-! ## C6 (corrected) -/

theorem isServiceUnavailErr_plainMsg (m : String) :
    isServiceUnavailErr (BErr.plainMsg m) = false := rfl

theorem isServiceUnavailErr_statusErr503 (m : String) :
    isServiceUnavailErr (BErr.statusErr 503 m) = true := rfl

theorem isStatusReady_not_ready (st : PoolState)
    (h : st.status = PoolStatus.pending ∨ st.poolName ∈ st.unavailablePools) :
    isStatusReady st = some (notReadyErr st) ∧
    (isServiceUnavailErr (notReadyErr st) = true ↔ st.status ≠ PoolStatus.pending) := by
  by_cases hp : st.status = PoolStatus.pending
  · refine ⟨by simp [isStatusReady, notReadyErr, hp], ?_⟩
    rw [notReadyErr, if_pos hp]
    simp [isServiceUnavailErr_plainMsg, hp]
  · rcases h with h | h
    · exact absurd h hp
    · refine ⟨by simp [isStatusReady, notReadyErr, hp, IsAvailable, h], ?_⟩
      rw [notReadyErr, if_neg hp]
      simp [isServiceUnavailErr_statusErr503, hp]

/-- C6 counterexample: a pool with pending global status makes the
volume-producing operations fail before any state change, but with a
plain error, not one of the service-unavailable kind. -/
theorem pool_pending_error_not_service_unavailable :
    (createInstanceFromImage ⟨⟨"p1", PoolStatus.pending, []⟩, true,
        CopyResult.ok, none⟩).1 =
      some (BErr.plainMsg "Specified pool is not fully created") ∧
    ((createInstanceFromImage ⟨⟨"p1", PoolStatus.pending, []⟩, true,
        CopyResult.ok, none⟩).1.map isServiceUnavailErr) = some false ∧
    ((ensureImage ⟨⟨"p1", PoolStatus.pending, []⟩, true, true, false, false, true, 0,
        QuotaResult.ok, 0⟩).1.map isServiceUnavailErr) = some false := by
  exact ⟨rfl, rfl, rfl⟩

/-- C6 amended: every modelled volume-producing operation called while
the pool's global status is pending or while the pool is in the
locally-unavailable set fails before any database or on-disk state
change; the error is of the service-unavailable kind exactly when it
comes from the locally-unavailable check, the pending check yielding a
plain error. -/
theorem pool_not_ready_gate (st : PoolState) (cfi : CreateFromImageEnv)
    (ee : EnsureEnv) (snapshots : List String) (headerSnaps : Option (List String))
    (bodyErr : Option BErr) (bodyEvents : List CreateEvent)
    (h : st.status = PoolStatus.pending ∨ st.poolName ∈ st.unavailablePools)
    (hcfi : cfi.pool = st) (hee : ee.pool = st) :
    createInstanceFromImage cfi = (some (notReadyErr st), []) ∧
    ensureImage ee = (some (notReadyErr st), []) ∧
    createInstanceFromMigration st snapshots headerSnaps =
      (some (notReadyErr st), none) ∧
    refreshCustomVolume st bodyErr bodyEvents = (some (notReadyErr st), []) ∧
    (isServiceUnavailErr (notReadyErr st) = true ↔ st.status ≠ PoolStatus.pending) := by
  obtain ⟨hr, hk⟩ := isStatusReady_not_ready st h
  refine ⟨?_, ?_, ?_, ?_, hk⟩ <;>
    simp [createInstanceFromImage, ensureImage, createInstanceFromMigration,
      refreshCustomVolume, hcfi, hee, hr]

theorem pool_not_ready_gate_check :
    createInstanceFromImage ⟨⟨"p1", PoolStatus.created, ["p1"]⟩, true,
        CopyResult.ok, none⟩ =
      (some (notReadyErr ⟨"p1", PoolStatus.created, ["p1"]⟩), []) ∧
    ensureImage ⟨⟨"p1", PoolStatus.created, ["p1"]⟩, true, true, false, false, true, 0,
        QuotaResult.ok, 0⟩ =
      (some (notReadyErr ⟨"p1", PoolStatus.created, ["p1"]⟩), []) ∧
    createInstanceFromMigration ⟨"p1", PoolStatus.created, ["p1"]⟩ [] none =
      (some (notReadyErr ⟨"p1", PoolStatus.created, ["p1"]⟩), none) ∧
    refreshCustomVolume ⟨"p1", PoolStatus.created, ["p1"]⟩ none [] =
      (some (notReadyErr ⟨"p1", PoolStatus.created, ["p1"]⟩), []) ∧
    (isServiceUnavailErr (notReadyErr ⟨"p1", PoolStatus.created, ["p1"]⟩) = true ↔
      (⟨"p1", PoolStatus.created, ["p1"]⟩ : PoolState).status ≠ PoolStatus.pending) :=
  pool_not_ready_gate ⟨"p1", PoolStatus.created, ["p1"]⟩
    ⟨⟨"p1", PoolStatus.created, ["p1"]⟩, true, CopyResult.ok, none⟩
    ⟨⟨"p1", PoolStatus.created, ["p1"]⟩, true, true, false, false, true, 0,
      QuotaResult.ok, 0⟩
    [] none none [] (Or.inr (by decide)) rfl rfl

/-! ## C3 (corrected) -/

theorem set_append_cons {α : Type} (A : List α) (x y : α) (B : List α) :
    (A ++ x :: B).set A.length y = A ++ y :: B := by
  induction A with
  | nil => rfl
  | cons a A ih => simp [ih]

theorem getD_append_cons {α : Type} (A : List α) (x : α) (B : List α) (d : α) :
    (A ++ x :: B).getD A.length d = x := by
  induction A with
  | nil => rfl
  | cons a A ih => simpa using ih

theorem setRecParent_at_append (who : String) (A : List (String × String))
    (pr : String × String) (B : List (String × String)) :
    setRecParent who (A ++ pr :: B) A.length = A ++ (who, pr.2) :: B := by
  unfold setRecParent
  rw [getD_append_cons, set_append_cons]

theorem recsOf_forward (oldName newName : String) (done : List String) (s : String)
    (todo : List String) :
    setRecParent newName (recsOf oldName newName done (s :: todo)) done.length =
      recsOf oldName newName (done ++ [s]) todo := by
  have h := setRecParent_at_append newName (done.map (fun t => (newName, t)))
    (oldName, s) (todo.map (fun t => (oldName, t)))
  simp only [List.length_map] at h
  simp [recsOf, h]

theorem recsOf_back (oldName newName : String) (done : List String) (s : String)
    (todo : List String) :
    setRecParent oldName (recsOf oldName newName (done ++ [s]) todo) done.length =
      recsOf oldName newName done (s :: todo) := by
  have h := setRecParent_at_append oldName (done.map (fun t => (newName, t)))
    (newName, s) (todo.map (fun t => (oldName, t)))
  simp only [List.length_map] at h
  simp [recsOf, h]

theorem runReverts_cons (st : RenameState) (f : RenameState → RenameState)
    (fs : List (RenameState → RenameState)) :
    runReverts st (f :: fs) = runReverts (f st) fs := rfl

theorem renameInit_eq_recsOf (oldName newName : String) (suffixes : List String) :
    renameInit oldName suffixes = ⟨oldName, recsOf oldName newName [] suffixes⟩ := by
  simp [renameInit, recsOf]

/-- When the failure index (if any) lies at or beyond the end of the
remaining snapshot renames, the loop renames every remaining record to
the new parent name, and the revert chain it builds undoes the run back
to the state the incoming chain undoes to. -/
theorem snapRenameLoop_completes (oldName newName p : String) (fa : Option Nat)
    (st0 : RenameState) :
    ∀ (todo done : List String) (reverts : List (RenameState → RenameState)),
    (∀ k, fa = some k → done.length + todo.length ≤ k) →
    runReverts ⟨p, recsOf oldName newName done todo⟩ reverts = st0 →
    (snapRenameLoop oldName newName fa todo done.length
        ⟨p, recsOf oldName newName done todo⟩ reverts).1 =
      ⟨p, recsOf oldName newName (done ++ todo) []⟩ ∧
    (snapRenameLoop oldName newName fa todo done.length
        ⟨p, recsOf oldName newName done todo⟩ reverts).2.2.2 = true ∧
    runReverts
      (snapRenameLoop oldName newName fa todo done.length
        ⟨p, recsOf oldName newName done todo⟩ reverts).1
      (snapRenameLoop oldName newName fa todo done.length
        ⟨p, recsOf oldName newName done todo⟩ reverts).2.1 = st0 := by
  intro todo
  induction todo with
  | nil =>
    intro done reverts _hfa hinv
    refine ⟨by simp [snapRenameLoop, recsOf], by simp [snapRenameLoop], ?_⟩
    simpa [snapRenameLoop] using hinv
  | cons s rest ih =>
    intro done reverts hfa hinv
    have hne : ¬ fa = some done.length := by
      intro hfaeq
      have := hfa done.length hfaeq
      simp only [List.length_cons] at this
      omega
    have hstep : setRecParent newName (recsOf oldName newName done (s :: rest))
        done.length = recsOf oldName newName (done ++ [s]) rest :=
      recsOf_forward oldName newName done s rest
    have hback : setRecParent oldName (recsOf oldName newName (done ++ [s]) rest)
        done.length = recsOf oldName newName done (s :: rest) :=
      recsOf_back oldName newName done s rest
    have hlen : (done ++ [s]).length = done.length + 1 := by simp
    have hinv' : runReverts ⟨p, recsOf oldName newName (done ++ [s]) rest⟩
        ((fun st => { st with snapRecs := setRecParent oldName st.snapRecs done.length })
          :: reverts) = st0 := by
      rw [runReverts_cons]
      show runReverts ⟨p, setRecParent oldName
        (recsOf oldName newName (done ++ [s]) rest) done.length⟩ reverts = st0
      rw [hback]
      exact hinv
    have hfa' : ∀ k, fa = some k → (done ++ [s]).length + rest.length ≤ k := by
      intro k hkk
      have := hfa k hkk
      simp only [hlen]
      simp only [List.length_cons] at this
      omega
    have hrec := ih (done ++ [s])
      ((fun st => { st with snapRecs := setRecParent oldName st.snapRecs done.length })
        :: reverts) hfa' hinv'
    rw [hlen] at hrec
    simp only [snapRenameLoop, if_neg hne]
    refine ⟨?_, ?_, ?_⟩
    · show (snapRenameLoop oldName newName fa rest (done.length + 1)
        ⟨p, setRecParent newName (recsOf oldName newName done (s :: rest)) done.length⟩
        _).1 = _
      rw [hstep]
      rw [hrec.1]
      simp
    · show (snapRenameLoop oldName newName fa rest (done.length + 1)
        ⟨p, setRecParent newName (recsOf oldName newName done (s :: rest)) done.length⟩
        _).2.2.2 = true
      rw [hstep]
      exact hrec.2.1
    · show runReverts (snapRenameLoop oldName newName fa rest (done.length + 1)
        ⟨p, setRecParent newName (recsOf oldName newName done (s :: rest)) done.length⟩
        _).1 (snapRenameLoop oldName newName fa rest (done.length + 1)
        ⟨p, setRecParent newName (recsOf oldName newName done (s :: rest)) done.length⟩
        _).2.1 = st0
      rw [hstep]
      exact hrec.2.2

/-- When the failure index falls inside the remaining snapshot renames,
the run ends with the revert chain applied: the committed state after
compensation is the state the incoming chain undoes to. -/
theorem snapRenameLoop_fails (oldName newName p : String) (m : Nat)
    (st0 : RenameState) :
    ∀ (todo done : List String) (reverts : List (RenameState → RenameState)),
    done.length ≤ m → m < done.length + todo.length →
    runReverts ⟨p, recsOf oldName newName done todo⟩ reverts = st0 →
    (snapRenameLoop oldName newName (some m) todo done.length
        ⟨p, recsOf oldName newName done todo⟩ reverts).1 = st0 ∧
    (snapRenameLoop oldName newName (some m) todo done.length
        ⟨p, recsOf oldName newName done todo⟩ reverts).2.2.2 = false := by
  intro todo
  induction todo with
  | nil =>
    intro done reverts hle hlt _hinv
    simp only [List.length_nil, Nat.add_zero] at hlt
    omega
  | cons s rest ih =>
    intro done reverts hle hlt hinv
    by_cases heq : m = done.length
    · subst heq
      refine ⟨?_, ?_⟩ <;> simp [snapRenameLoop, hinv]
    · have hne : ¬ (some m : Option Nat) = some done.length := by
        simp [heq]
      have hstep := recsOf_forward oldName newName done s rest
      have hback := recsOf_back oldName newName done s rest
      have hlen : (done ++ [s]).length = done.length + 1 := by simp
      have hinv' : runReverts ⟨p, recsOf oldName newName (done ++ [s]) rest⟩
          ((fun st => { st with snapRecs := setRecParent oldName st.snapRecs done.length })
            :: reverts) = st0 := by
        rw [runReverts_cons]
        show runReverts ⟨p, setRecParent oldName
          (recsOf oldName newName (done ++ [s]) rest) done.length⟩ reverts = st0
        rw [hback]
        exact hinv
      have hle' : (done ++ [s]).length ≤ m := by
        rw [hlen]; omega
      have hlt' : m < (done ++ [s]).length + rest.length := by
        rw [hlen]
        simp only [List.length_cons] at hlt
        omega
      have hrec := ih (done ++ [s])
        ((fun st => { st with snapRecs := setRecParent oldName st.snapRecs done.length })
          :: reverts) hle' hlt' hinv'
      rw [hlen] at hrec
      simp only [snapRenameLoop, if_neg hne]
      refine ⟨?_, ?_⟩
      · show (snapRenameLoop oldName newName (some m) rest (done.length + 1)
          ⟨p, setRecParent newName (recsOf oldName newName done (s :: rest)) done.length⟩
          _).1 = st0
        rw [hstep]
        exact hrec.1
      · show (snapRenameLoop oldName newName (some m) rest (done.length + 1)
          ⟨p, setRecParent newName (recsOf oldName newName done (s :: rest)) done.length⟩
          _).2.2.2 = false
        rw [hstep]
        exact hrec.2

theorem renameInstanceDB_eq (oldName newName : String) (suffixes : List String)
    (failAt : Option Nat) :
    renameInstanceDB oldName newName suffixes failAt =
      (fun r : RenameState × List (RenameState → RenameState) × List RenameState × Bool =>
        if !r.2.2.2 then (r.1, false)
        else if failAt = some suffixes.length then (runReverts r.1 r.2.1, false)
        else ({ r.1 with parentRec := newName }, true))
      (snapRenameLoop oldName newName failAt suffixes 0
        ⟨oldName, recsOf oldName newName [] suffixes⟩ []) := by
  simp only [renameInstanceDB]
  rw [renameInit_eq_recsOf oldName newName]

/-- C3 counterexample: renaming instance `c1` (snapshots `s1`, `s2`) to
`c2` with every DB call succeeding passes through a committed database
state in which one snapshot record already carries the new parent name
while the other snapshot record and the parent record still carry the
old one. -/
theorem renameInstance_committed_mixture :
    (renameCommittedStates "c1" "c2" ["s1", "s2"]).any (mixedState "c1" "c2") = true := by
  decide

/-- C3 amended: `RenameInstance` renames snapshot DB records one
`RenameStoragePoolVolume` call at a time, each its own committed
transaction with a compensating revert; when every call succeeds the
final committed state carries the new parent name on the parent record
and on every snapshot record, and when the DB rename at any position
fails the compensations restore the initial state, so the operation
never finishes in a mixed state (though intermediate committed states
can mix old and new names). -/
theorem renameInstanceDB_discipline (oldName newName : String)
    (suffixes : List String) (k : Nat) (hk : k ≤ suffixes.length) :
    renameInstanceDB oldName newName suffixes none =
      (⟨newName, suffixes.map (fun s => (newName, s))⟩, true) ∧
    renameInstanceDB oldName newName suffixes (some k) =
      (renameInit oldName suffixes, false) := by
  have hinv0 : runReverts ⟨oldName, recsOf oldName newName [] suffixes⟩ [] =
      renameInit oldName suffixes :=
    (renameInit_eq_recsOf oldName newName suffixes).symm
  constructor
  · have h := snapRenameLoop_completes oldName newName oldName none
      (renameInit oldName suffixes) suffixes [] [] (by intro k' hk'; cases hk') hinv0
    simp only [List.length_nil, List.nil_append] at h
    rw [renameInstanceDB_eq]
    dsimp only
    rw [h.2.1, h.1]
    simp [recsOf]
  · rcases Nat.lt_or_ge k suffixes.length with hlt | hge
    · have h := snapRenameLoop_fails oldName newName oldName k
        (renameInit oldName suffixes) suffixes [] []
        (by simp) (by simpa using hlt) hinv0
      simp only [List.length_nil] at h
      rw [renameInstanceDB_eq]
      dsimp only
      rw [h.2, h.1]
      simp
    · have hkeq : k = suffixes.length := Nat.le_antisymm hk hge
      subst hkeq
      have h := snapRenameLoop_completes oldName newName oldName
        (some suffixes.length) (renameInit oldName suffixes) suffixes [] []
        (by intro k' hk'; simp only [Option.some.injEq] at hk'; subst hk'; simp) hinv0
      simp only [List.length_nil, List.nil_append] at h
      rw [renameInstanceDB_eq]
      dsimp only
      rw [h.2.1]
      simp only [Bool.not_true, Bool.false_eq_true, if_false, if_pos rfl]
      simp [h.2.2]

theorem renameInstanceDB_discipline_check :
    renameInstanceDB "c1" "c2" ["s1", "s2"] none =
      (⟨"c2", [("c2", "s1"), ("c2", "s2")]⟩, true) ∧
    renameInstanceDB "c1" "c2" ["s1", "s2"] (some 1) =
      (renameInit "c1" ["s1", "s2"], false) :=
  renameInstanceDB_discipline "c1" "c2" ["s1", "s2"] 1 (by decide)

end LXD
